import Mathlib

/-!
Verification of the Real Intent → Pipedrive CSV converter (`src/app.py`).

The program reads an uploaded CSV into a pandas DataFrame, checks that every
key of `COLUMN_MAPPINGS` occurs among the DataFrame's columns, and on success
selects the mapped columns in mapping order, renames them to the Pipedrive
labels, and serializes the result to UTF-8 CSV.  We embed the DataFrame as a
`Table` (a list of column names plus a list of rows), and the conversion as a
pure function `convert : Table → Except (List String) Table`.
-/

/-- The static mapping from Real Intent column keys to Pipedrive column
headers, in the order the Python dict `COLUMN_MAPPINGS` (src/app.py lines
34–47) declares its entries; Python dicts preserve insertion order. -/
def COLUMN_MAPPINGS : List (String × String) :=
  [ ("first_name", "First name"),
    ("last_name", "Last name"),
    ("email_1", "Email"),
    ("email_2", "Email 2"),
    ("email_3", "Email 3"),
    ("phone_1", "Phone"),
    ("phone_2", "Phone 2"),
    ("address", "Address"),
    ("city", "City"),
    ("state", "State"),
    ("zip_code", "Postal code"),
    ("household_income", "Household income") ]

/-- The source keys of the mapping, in mapping order: iterating a Python dict
(`for col in COLUMN_MAPPINGS`) yields its keys in insertion order. -/
def mappingKeys : List String := COLUMN_MAPPINGS.map Prod.fst

/-- The destination labels of the mapping, in mapping order. -/
def mappingLabels : List String := COLUMN_MAPPINGS.map Prod.snd

/-- A pandas DataFrame, embedded shallowly: the list of column names and the
list of rows, each row a list of cell values aligned positionally with
`cols`.  All cells are kept as strings, as a CSV round trip presents them. -/
structure Table where
  cols : List String
  rows : List (List String)
deriving Repr, DecidableEq

/-- A well-formed (rectangular) frame: every row has one cell per column.
pandas DataFrames parsed from CSV are rectangular by construction. -/
def Table.Aligned (t : Table) : Prop := ∀ r ∈ t.rows, r.length = t.cols.length

/-- Label-based cell lookup, the embedding of selecting column `k` of a row:
walk the column names and the row's cells in step and return the cell under
the first column named `k` (pandas label indexing; the fallback `""` for an
absent label is never reached after validation). -/
def lookupCell : List String → List String → String → String
  | [], _, _ => ""
  | _ :: _, [], _ => ""
  | c :: cs, v :: vs, k => if c == k then v else lookupCell cs vs k

/-- The cell of row `i` under column name `c`. -/
def Table.cell (t : Table) (i : Nat) (c : String) : String :=
  lookupCell t.cols (t.rows.getD i []) c

/-- `missing_columns = [col for col in COLUMN_MAPPINGS if col not in df.columns]`
(src/app.py line 79): the mapping keys absent from the frame's columns, in
mapping order. -/
def missingColumns (df : Table) : List String :=
  mappingKeys.filter (fun c => decide (¬ c ∈ df.cols))

/-- The error text of src/app.py lines 82–84 (an f-string joining the missing
keys with a comma). -/
def errorMessage (missing : List String) : String :=
  "The uploaded file does not contain the required columns: "
    ++ String.intercalate ", " missing ++ "."

/-- `df[cs]`: select the named columns, in the order of `cs` (src/app.py
line 88, `df[list(COLUMN_MAPPINGS.keys())]`). -/
def selectColumns (df : Table) (cs : List String) : Table :=
  ⟨cs, df.rows.map (fun r => cs.map (lookupCell df.cols r))⟩

/-- `DataFrame.rename(columns=m)` on a single name: the first mapping entry
whose key equals the name gives the new name; names not in the mapping are
kept unchanged. -/
def renameWith (m : List (String × String)) (c : String) : String :=
  match m.find? (fun p => p.1 == c) with
  | some p => p.2
  | none => c

/-- `df.rename(columns=m)` (src/app.py line 88): rename every column through
the mapping, rows untouched. -/
def renameColumns (df : Table) (m : List (String × String)) : Table :=
  ⟨df.cols.map (renameWith m), df.rows⟩

/-- `df[list(COLUMN_MAPPINGS.keys())].rename(columns=COLUMN_MAPPINGS)`
(src/app.py line 88). -/
def transform (df : Table) : Table :=
  renameColumns (selectColumns df mappingKeys) COLUMN_MAPPINGS

/-- The conversion of src/app.py lines 79–88: compute the missing columns; if
any, fail with them (the app shows `errorMessage` and returns, producing no
output); otherwise produce the transformed frame. -/
def convert (df : Table) : Except (List String) Table :=
  let missing := missingColumns df
  if missing = [] then .ok (transform df) else .error missing

/-- Minimal CSV quoting as pandas `to_csv` applies it (csv.QUOTE_MINIMAL):
a cell holding a comma, a double quote, or a line break is wrapped in double
quotes with inner quotes doubled. -/
def csvCell (s : String) : String :=
  if s.data.any (fun c => c == ',' || c == '"' || c == '\n' || c == '\r')
  then "\"" ++ (s.replace "\"" "\"\"") ++ "\""
  else s

/-- One CSV record: the cells, quoted as needed, joined by commas. -/
def csvLine (cells : List String) : String :=
  String.intercalate "," (cells.map csvCell)

/-- `df.to_csv(index=False)` (src/app.py line 94): the header line followed by
one line per row, each terminated by a newline. -/
def to_csv (t : Table) : String :=
  csvLine t.cols ++ "\n" ++ String.join (t.rows.map (fun r => csvLine r ++ "\n"))

/-- `.encode("utf-8")` (src/app.py line 94): the bytes of the CSV text. -/
def csv_data (t : Table) : List UInt8 :=
  (to_csv t).toUTF8.toList

/-! ### Concrete frames used by the witnesses -/

/-- The spec's end-to-end example row, with every required column present. -/
def dfFull : Table :=
  ⟨["first_name", "last_name", "email_1", "email_2", "email_3", "phone_1",
    "phone_2", "address", "city", "state", "zip_code", "household_income"],
   [["Jane", "Doe", "jane@x.com", "", "", "555-1000", "", "1 Main St",
     "Springfield", "IL", "62704", "85000"]]⟩

/-- `dfFull` with the `zip_code` column removed. -/
def dfMissing : Table :=
  ⟨["first_name", "last_name", "email_1", "email_2", "email_3", "phone_1",
    "phone_2", "address", "city", "state", "household_income"],
   [["Jane", "Doe", "jane@x.com", "", "", "555-1000", "", "1 Main St",
     "Springfield", "IL", "85000"]]⟩

/-- A frame offering only casing/whitespace variants of `first_name`. -/
def dfVariant : Table :=
  ⟨["First_Name", " first_name ", "last_name", "email_1", "email_2",
    "email_3", "phone_1", "phone_2", "address", "city", "state", "zip_code",
    "household_income"],
   [["Jane", "Jane", "Doe", "jane@x.com", "", "", "555-1000", "", "1 Main St",
     "Springfield", "IL", "62704", "85000"]]⟩

/-- `dfFull` with its columns (and each row) reversed: a column permutation. -/
def dfPermuted : Table :=
  ⟨["household_income", "zip_code", "state", "city", "address", "phone_2",
    "phone_1", "email_3", "email_2", "email_1", "last_name", "first_name"],
   [["85000", "62704", "IL", "Springfield", "1 Main St", "", "555-1000", "",
     "", "jane@x.com", "Doe", "Jane"]]⟩

/-- A frame (columns listed back to front) missing `last_name` and
`email_1`: alphabetical order would put `email_1` first, the input's column
order puts neither anywhere, but the mapping order reports `last_name`
first. -/
def dfC10 : Table :=
  ⟨["household_income", "zip_code", "state", "city", "address", "phone_2",
    "phone_1", "email_3", "email_2", "first_name"],
   []⟩

/-! ### Basic lemmas about the embedding -/

theorem lookupCell_nil_row (cols : List String) (k : String) :
    lookupCell cols [] k = "" := by
  cases cols <;> rfl

theorem mem_missingColumns (df : Table) (k : String) :
    k ∈ missingColumns df ↔ k ∈ mappingKeys ∧ ¬ k ∈ df.cols := by
  simp [missingColumns, List.mem_filter]

theorem missingColumns_eq_nil (df : Table) :
    missingColumns df = [] ↔ ∀ k ∈ mappingKeys, k ∈ df.cols := by
  simp [missingColumns, List.filter_eq_nil_iff]

theorem convert_ok (df : Table) (h : missingColumns df = []) :
    convert df = .ok (transform df) := by
  simp [convert, h]

theorem convert_error (df : Table) (h : ¬ missingColumns df = []) :
    convert df = .error (missingColumns df) := by
  simp [convert, h]

theorem transform_cols (df : Table) :
    (transform df).cols = mappingLabels := by
  rfl

theorem transform_rows (df : Table) :
    (transform df).rows
      = df.rows.map (fun r => mappingKeys.map (lookupCell df.cols r)) := by
  rfl

theorem convert_ok_iff (df : Table) (out : Table) :
    convert df = .ok out ↔ missingColumns df = [] ∧ out = transform df := by
  by_cases h : missingColumns df = []
  · simp [convert_ok df h, h, eq_comm]
  · simp [convert_error df h, h]

theorem convert_error_iff (df : Table) (e : List String) :
    convert df = .error e ↔ ¬ missingColumns df = [] ∧ e = missingColumns df := by
  by_cases h : missingColumns df = []
  · simp [convert_ok df h, h]
  · simp [convert_error df h, h, eq_comm]

/-! ### The claims -/

/-- C1.  Conversion fails exactly when some mapping source key is absent from
the input's columns; the error payload (whose joined text the app shows)
holds exactly the absent keys, and no output frame is produced on failure.
The spec's failure example: leaving out `zip_code` reports it alone. -/
theorem missing_column_failure (df : Table) :
    ((∃ e, convert df = .error e) ↔ ∃ k, k ∈ mappingKeys ∧ ¬ k ∈ df.cols) ∧
    (∀ e, convert df = .error e →
      (∀ k, k ∈ e ↔ k ∈ mappingKeys ∧ ¬ k ∈ df.cols) ∧
      errorMessage e
        = "The uploaded file does not contain the required columns: "
            ++ String.intercalate ", " e ++ "." ∧
      ∀ out, ¬ convert df = .ok out) ∧
    convert dfMissing = .error ["zip_code"] := by
  refine ⟨?_, ?_, by rfl⟩
  · constructor
    · rintro ⟨e, he⟩
      rcases (convert_error_iff df e).1 he with ⟨hne, rfl⟩
      rcases List.exists_mem_of_ne_nil _ hne with ⟨k, hk⟩
      exact ⟨k, (mem_missingColumns df k).1 hk⟩
    · rintro ⟨k, hk, habs⟩
      refine ⟨missingColumns df, (convert_error_iff df _).2 ⟨?_, rfl⟩⟩
      intro hnil
      exact habs ((missingColumns_eq_nil df).1 hnil k hk)
  · intro e he
    rcases (convert_error_iff df e).1 he with ⟨hne, rfl⟩
    refine ⟨fun k => mem_missingColumns df k, rfl, ?_⟩
    intro out hok
    rcases (convert_ok_iff df out).1 hok with ⟨hnil, -⟩
    exact hne hnil

theorem csvLine_labels :
    csvLine mappingLabels
      = "First name,Last name,Email,Email 2,Email 3,Phone,Phone 2,Address,City,State,Postal code,Household income" := by
  decide

theorem lookupCell_map_labels (f : String → String) (m : String × String)
    (hm : m ∈ COLUMN_MAPPINGS) :
    lookupCell mappingLabels (mappingKeys.map f) m.2 = f m.1 := by
  simp only [COLUMN_MAPPINGS, List.mem_cons, List.not_mem_nil, or_false] at hm
  rcases hm with rfl | rfl | rfl | rfl | rfl | rfl | rfl | rfl | rfl | rfl | rfl | rfl <;> rfl

theorem getD_map_lt (l : List (List String)) (g : List String → List String)
    (i : Nat) (hi : i < l.length) :
    (l.map g).getD i [] = g (l.getD i []) := by
  simp [List.getD_eq_getElem?_getD, List.getElem?_map, List.getElem?_eq_getElem hi]

/-- C2.  With every required source key present, conversion succeeds and the
output has exactly the twelve mapped columns in mapping order with the exact
Pipedrive labels; its serialization is the destination-label header line
followed by one CSV line per output row, and the downloadable bytes are the
UTF-8 encoding of that text. -/
theorem full_input_output_shape (df : Table)
    (h : ∀ k ∈ mappingKeys, k ∈ df.cols) :
    ∃ out, convert df = .ok out ∧
      out.cols = ["First name", "Last name", "Email", "Email 2", "Email 3",
        "Phone", "Phone 2", "Address", "City", "State", "Postal code",
        "Household income"] ∧
      out.cols.length = 12 ∧
      out.rows.length = df.rows.length ∧
      to_csv out
        = "First name,Last name,Email,Email 2,Email 3,Phone,Phone 2,Address,City,State,Postal code,Household income\n"
            ++ String.join (out.rows.map (fun r => csvLine r ++ "\n")) ∧
      csv_data out = (to_csv out).toUTF8.toList := by
  have hnil : missingColumns df = [] := (missingColumns_eq_nil df).2 h
  refine ⟨transform df, convert_ok df hnil, rfl, rfl, ?_, ?_, rfl⟩
  · simp [transform_rows]
  · rw [to_csv, transform_cols, csvLine_labels]
    rfl

/-- C2 witness: the spec's end-to-end example input. -/
theorem full_input_output_shape_witness :
    ∃ out, convert dfFull = .ok out ∧
      out.cols = ["First name", "Last name", "Email", "Email 2", "Email 3",
        "Phone", "Phone 2", "Address", "City", "State", "Postal code",
        "Household income"] ∧
      out.cols.length = 12 ∧
      out.rows.length = dfFull.rows.length ∧
      to_csv out
        = "First name,Last name,Email,Email 2,Email 3,Phone,Phone 2,Address,City,State,Postal code,Household income\n"
            ++ String.join (out.rows.map (fun r => csvLine r ++ "\n")) ∧
      csv_data out = (to_csv out).toUTF8.toList :=
  full_input_output_shape dfFull (by decide)

/-- C3.  For a successful conversion, output row `i` is input row `i`
restricted to the mapped source columns in mapping order, and the cell under
each destination label equals the input cell under its source key,
unchanged. -/
theorem row_values_preserved (df out : Table) (h : convert df = .ok out)
    (i : Nat) (hi : i < df.rows.length)
    (m : String × String) (hm : m ∈ COLUMN_MAPPINGS) :
    out.rows.getD i [] = mappingKeys.map (df.cell i) ∧
    out.cell i m.2 = df.cell i m.1 := by
  rcases (convert_ok_iff df out).1 h with ⟨-, rfl⟩
  have h1 : (transform df).rows.getD i []
      = mappingKeys.map (df.cell i) := by
    rw [transform_rows, getD_map_lt _ _ i hi]
    rfl
  refine ⟨h1, ?_⟩
  show lookupCell (transform df).cols ((transform df).rows.getD i []) m.2 = _
  rw [h1, transform_cols, lookupCell_map_labels (df.cell i) m hm]

/-- C3 witness: the example input, row 0, the `email_1 → Email` mapping. -/
theorem row_values_preserved_witness :
    (transform dfFull).rows.getD 0 [] = mappingKeys.map (dfFull.cell 0) ∧
    (transform dfFull).cell 0 "Email" = dfFull.cell 0 "email_1" :=
  row_values_preserved dfFull (transform dfFull) (by rfl) 0 (by decide)
    ("email_1", "Email") (by decide)

/-- C4.  A successful conversion preserves the row count. -/
theorem row_count_preserved (df out : Table) (h : convert df = .ok out) :
    out.rows.length = df.rows.length := by
  rcases (convert_ok_iff df out).1 h with ⟨-, rfl⟩
  simp [transform_rows]

/-- C4 witness: the example input has one row, and so does its output. -/
theorem row_count_preserved_witness :
    (transform dfFull).rows.length = dfFull.rows.length :=
  row_count_preserved dfFull (transform dfFull) (by rfl)

theorem Table.ext (t1 t2 : Table) (hc : t1.cols = t2.cols)
    (hr : t1.rows = t2.rows) : t1 = t2 := by
  cases t1; cases t2; cases hc; cases hr; rfl

theorem lookupCell_append (cols r ext ev : List String) (k : String)
    (hk : k ∈ cols) (hlen : r.length = cols.length) :
    lookupCell (cols ++ ext) (r ++ ev) k = lookupCell cols r k := by
  induction cols generalizing r with
  | nil => cases hk
  | cons c cs ih =>
    cases r with
    | nil => simp at hlen
    | cons v vs =>
      by_cases hck : c = k
      · simp [lookupCell, hck]
      · have hk' : k ∈ cs := by
          rcases List.mem_cons.1 hk with h | h
          · exact absurd h.symm hck
          · exact h
        simp [lookupCell, hck, ih vs hk' (by simpa using hlen)]

theorem select_append_rows (cols ex : List String) (rows ev : List (List String))
    (ha : ∀ r ∈ rows, r.length = cols.length)
    (hlen : ev.length = rows.length)
    (hsub : ∀ k ∈ mappingKeys, k ∈ cols) :
    (rows.zip ev).map
        (fun p => mappingKeys.map (lookupCell (cols ++ ex) (p.1 ++ p.2)))
      = rows.map (fun r => mappingKeys.map (lookupCell cols r)) := by
  induction rows generalizing ev with
  | nil => simp
  | cons r rs ih =>
    cases ev with
    | nil => simp at hlen
    | cons e es =>
      simp only [List.zip_cons_cons, List.map_cons]
      congr 1
      · exact List.map_congr_left (fun k hk =>
          lookupCell_append cols r ex e k (hsub k hk)
            (ha r (List.mem_cons_self r rs)))
      · exact ih es (fun x hx => ha x (List.mem_cons_of_mem r hx))
          (by simpa using hlen)

/-- C5.  Columns beyond the mapped ones contribute nothing: appending extra
columns (with their cell values) to an input that already has every required
key changes neither the outcome nor the output frame, the conversion still
succeeds without error, and the output carries only the twelve mapped
destination columns. -/
theorem extra_columns_dropped (df : Table) (extraCols : List String)
    (extraVals : List (List String))
    (h : ∀ k ∈ mappingKeys, k ∈ df.cols)
    (hd : ∀ c ∈ extraCols, ¬ c ∈ mappingKeys)
    (ha : df.Aligned)
    (hlen : extraVals.length = df.rows.length) :
    convert ⟨df.cols ++ extraCols,
        (df.rows.zip extraVals).map (fun p => p.1 ++ p.2)⟩
      = convert df ∧
    convert df = .ok (transform df) ∧
    (transform df).cols = mappingLabels := by
  have hmem : ∀ k ∈ mappingKeys, (k ∈ df.cols ++ extraCols ↔ k ∈ df.cols) :=
    fun k hk => List.mem_append.trans (or_iff_left (fun hke => hd k hke hk))
  have hnil : missingColumns df = [] := (missingColumns_eq_nil df).2 h
  have hnil2 : missingColumns ⟨df.cols ++ extraCols,
      (df.rows.zip extraVals).map (fun p => p.1 ++ p.2)⟩ = [] := by
    rw [show missingColumns ⟨df.cols ++ extraCols,
        (df.rows.zip extraVals).map (fun p => p.1 ++ p.2)⟩
        = missingColumns df from
      List.filter_congr (fun k hk => decide_eq_decide.2 (not_congr (hmem k hk)))]
    exact hnil
  refine ⟨?_, convert_ok df hnil, transform_cols df⟩
  rw [convert_ok _ hnil2, convert_ok df hnil]
  congr 1
  apply Table.ext
  · rfl
  show ((df.rows.zip extraVals).map (fun p => p.1 ++ p.2)).map
      (fun r => mappingKeys.map (lookupCell (df.cols ++ extraCols) r))
    = df.rows.map (fun r => mappingKeys.map (lookupCell df.cols r))
  rw [List.map_map]
  exact select_append_rows df.cols extraCols df.rows extraVals ha hlen h

/-- C5 witness: the example input with an extra `lead_score` column. -/
theorem extra_columns_dropped_witness :
    convert ⟨dfFull.cols ++ ["lead_score"],
        (dfFull.rows.zip [["9"]]).map (fun p => p.1 ++ p.2)⟩
      = convert dfFull ∧
    convert dfFull = .ok (transform dfFull) ∧
    (transform dfFull).cols = mappingLabels :=
  extra_columns_dropped dfFull ["lead_score"] [["9"]]
    (by decide) (by decide)
    (by show ∀ r ∈ dfFull.rows, r.length = dfFull.cols.length
        decide)
    (by decide)

/-- C6.  The input's column order is irrelevant: two inputs whose column-name
lists are permutations of one another, with the same number of rows and the
same cell under every column name in every row, convert to exactly the same
result (same outcome, same output columns, headers and cell values). -/
theorem column_order_irrelevant (df1 df2 : Table)
    (hperm : df1.cols.Perm df2.cols)
    (hrows : df1.rows.length = df2.rows.length)
    (hcell : ∀ c ∈ df1.cols, ∀ i, i < df1.rows.length →
      lookupCell df1.cols (df1.rows.getD i []) c
        = lookupCell df2.cols (df2.rows.getD i []) c) :
    convert df1 = convert df2 := by
  have hmem : ∀ k : String, k ∈ df1.cols ↔ k ∈ df2.cols := fun k => hperm.mem_iff
  have hmiss : missingColumns df1 = missingColumns df2 :=
    List.filter_congr (fun k _ => decide_eq_decide.2 (not_congr (hmem k)))
  by_cases hnil : missingColumns df1 = []
  · rw [convert_ok df1 hnil, convert_ok df2 (hmiss ▸ hnil)]
    congr 1
    apply Table.ext
    · rfl
    show df1.rows.map (fun r => mappingKeys.map (lookupCell df1.cols r))
        = df2.rows.map (fun r => mappingKeys.map (lookupCell df2.cols r))
    apply List.ext_getElem (by simpa using hrows)
    intro i h1 h2
    simp only [List.getElem_map]
    apply List.map_congr_left
    intro k hk
    have hk1 : k ∈ df1.cols := (missingColumns_eq_nil df1).1 hnil k hk
    have hl := hcell k hk1 i (by simpa using h1)
    rwa [List.getD_eq_getElem df1.rows [] (by simpa using h1),
         List.getD_eq_getElem df2.rows [] (by simpa using h2)] at hl
  · rw [convert_error df1 hnil, convert_error df2 (fun hh => hnil (hmiss ▸ hh)),
        hmiss]

/-- C6 witness: the example input and the same input with its columns (and
each row) reversed convert to the same result. -/
theorem column_order_irrelevant_witness :
    convert dfFull = convert dfPermuted :=
  column_order_irrelevant dfFull dfPermuted (by decide) (by decide)
    (by decide)

/-- C7.  Column matching is exact: whenever a required source key is not
literally among the input's column names — in particular when only casing or
whitespace variants of it are — that key is reported missing and conversion
fails. -/
theorem exact_column_matching (df : Table) (k : String)
    (hk : k ∈ mappingKeys) (habs : ¬ k ∈ df.cols) :
    k ∈ missingColumns df ∧ convert df = .error (missingColumns df) := by
  have hm : k ∈ missingColumns df := (mem_missingColumns df k).2 ⟨hk, habs⟩
  exact ⟨hm, convert_error df (fun h => by rw [h] at hm; cases hm)⟩

/-- C7 witness: an input offering `First_Name` and ` first_name ` but not
`first_name` fails, with `first_name` among the missing keys. -/
theorem exact_column_matching_witness :
    "first_name" ∈ missingColumns dfVariant ∧
    convert dfVariant = .error (missingColumns dfVariant) :=
  exact_column_matching dfVariant "first_name" (by decide) (by decide)

/-- C8.  The destination label of each column is a pure function of the
source column name alone: any two successfully converted inputs get the same
output column names, namely the mapping keys renamed through the static
mapping, which sends every mapped key to its destination label. -/
theorem rename_pure_function (df1 df2 out1 out2 : Table)
    (h1 : convert df1 = .ok out1) (h2 : convert df2 = .ok out2) :
    out1.cols = out2.cols ∧
    out1.cols = mappingKeys.map (renameWith COLUMN_MAPPINGS) ∧
    ∀ m ∈ COLUMN_MAPPINGS, renameWith COLUMN_MAPPINGS m.1 = m.2 := by
  rcases (convert_ok_iff df1 out1).1 h1 with ⟨-, rfl⟩
  rcases (convert_ok_iff df2 out2).1 h2 with ⟨-, rfl⟩
  refine ⟨rfl, rfl, ?_⟩
  intro m hm
  simp only [COLUMN_MAPPINGS, List.mem_cons, List.not_mem_nil, or_false] at hm
  rcases hm with rfl | rfl | rfl | rfl | rfl | rfl | rfl | rfl | rfl | rfl | rfl | rfl <;> rfl

/-- C8 witness: two inputs with different contents and column orders. -/
theorem rename_pure_function_witness :
    (transform dfFull).cols = (transform dfPermuted).cols ∧
    (transform dfFull).cols = mappingKeys.map (renameWith COLUMN_MAPPINGS) ∧
    ∀ m ∈ COLUMN_MAPPINGS, renameWith COLUMN_MAPPINGS m.1 = m.2 :=
  rename_pure_function dfFull dfPermuted (transform dfFull)
    (transform dfPermuted) (by rfl) (by rfl)

/-- C9.  The conversion is deterministic: on equal inputs it yields equal
results — the same outcome, byte-identical CSV on success, and the same
missing-key list (hence the same error text) on failure. -/
theorem conversion_deterministic (df1 df2 : Table) (h : df1 = df2) :
    convert df1 = convert df2 ∧
    (∀ o1 o2, convert df1 = .ok o1 → convert df2 = .ok o2 →
      csv_data o1 = csv_data o2) ∧
    (∀ e1 e2, convert df1 = .error e1 → convert df2 = .error e2 →
      e1 = e2 ∧ errorMessage e1 = errorMessage e2) := by
  subst h
  refine ⟨rfl, ?_, ?_⟩
  · intro o1 o2 h1 h2
    rw [h1] at h2
    injection h2 with h3
    rw [h3]
  · intro e1 e2 h1 h2
    rw [h1] at h2
    injection h2 with h3
    exact ⟨h3, by rw [h3]⟩

/-- C9 witness: two runs on the example input. -/
theorem conversion_deterministic_witness :
    convert dfFull = convert dfFull ∧
    (∀ o1 o2, convert dfFull = .ok o1 → convert dfFull = .ok o2 →
      csv_data o1 = csv_data o2) ∧
    (∀ e1 e2, convert dfFull = .error e1 → convert dfFull = .error e2 →
      e1 = e2 ∧ errorMessage e1 = errorMessage e2) :=
  conversion_deterministic dfFull dfFull (by rfl)

/-- C10.  The missing keys are always reported as a sublist of the mapping
keys, i.e. in mapping-table order; concretely, a frame (columns listed back
to front) lacking `last_name` and `email_1` reports `last_name` first, though
alphabetical order would put `email_1` first. -/
theorem missing_in_mapping_order (df : Table) :
    (missingColumns df).Sublist mappingKeys ∧
    missingColumns dfC10 = ["last_name", "email_1"] :=
  ⟨List.filter_sublist mappingKeys, by decide⟩
